import Mathlib

/-!
Shallow embedding of the PulseAudio client connection core
(`src/pulse/context.c`) and proofs about it.

Pure functions of the C file are translated to Lean functions over an
explicit `Context` state record.  Machine integers (`uint32_t`) are
modelled as `Nat` with explicit reduction modulo `2^32` / masking where
the C code masks.  Fallible wire decoding (`pa_tagstruct_getu32` +
`pa_tagstruct_eof`) is modelled by matching on the list of remaining
32-bit payload words.  External collaborators (pstream, pdispatch,
socket client, streams, operations) appear as the fields of `Context`
the C code reads and writes.
-/

namespace PulseCtx

/-- The context state machine's states (`pa_context_state_t`). -/
inductive ContextState where
  | unconnected
  | connecting
  | authorizing
  | settingName
  | ready
  | failed
  | terminated
deriving DecidableEq, Repr

/-- Stream states, as far as `context_unlink` drives them
(`pa_stream_set_state` targets). -/
inductive StreamState where
  | unconnected
  | creating
  | ready
  | failed
  | terminated
deriving DecidableEq, Repr

/-- Operation states (`pa_operation_state_t`). -/
inductive OpState where
  | running
  | done
  | cancelled
deriving DecidableEq, Repr

/-- Modelled from the spec: the stable error taxonomy of §7 (`pulse/def.h`
is not part of the sources under review).  Codes are numbered in the
spec's listed order starting at `PA_OK = 0`. -/
def PA_OK : Nat := 0
def PA_ERR_ACCESS : Nat := 1
def PA_ERR_COMMAND : Nat := 2
def PA_ERR_INVALID : Nat := 3
def PA_ERR_EXIST : Nat := 4
def PA_ERR_NOENTITY : Nat := 5
def PA_ERR_CONNECTIONREFUSED : Nat := 6
def PA_ERR_PROTOCOL : Nat := 7
def PA_ERR_TIMEOUT : Nat := 8
def PA_ERR_AUTHKEY : Nat := 9
def PA_ERR_INTERNAL : Nat := 10
def PA_ERR_CONNECTIONTERMINATED : Nat := 11
def PA_ERR_KILLED : Nat := 12
def PA_ERR_INVALIDSERVER : Nat := 13
def PA_ERR_MODINITFAILED : Nat := 14
def PA_ERR_BADSTATE : Nat := 15
def PA_ERR_NODATA : Nat := 16
def PA_ERR_VERSION : Nat := 17
def PA_ERR_TOOLARGE : Nat := 18
def PA_ERR_NOTSUPPORTED : Nat := 19
def PA_ERR_UNKNOWN : Nat := 20
def PA_ERR_NODATAPRESENT : Nat := 21
def PA_ERR_FORKED : Nat := 22
def PA_ERR_IO : Nat := 23
def PA_ERR_BUSY : Nat := 24
def PA_ERR_MAX : Nat := 25

/-- Modelled from the spec: wire command codes used by the core
(`pulsecore/native-common.h` is not part of the sources under review);
only distinctness of `ERROR`, `TIMEOUT` and `REPLY` matters here. -/
def PA_COMMAND_ERROR : Nat := 0
def PA_COMMAND_TIMEOUT : Nat := 1
def PA_COMMAND_REPLY : Nat := 2
def PA_COMMAND_AUTH : Nat := 8
def PA_COMMAND_SET_CLIENT_NAME : Nat := 9
def PA_COMMAND_UPDATE_CLIENT_PROPLIST : Nat := 84
def PA_COMMAND_REMOVE_CLIENT_PROPLIST : Nat := 85

/-- `PA_INVALID_INDEX` (`(uint32_t) -1`). -/
def PA_INVALID_INDEX : Nat := 4294967295

/-- Modelled from the spec: `pa_update_mode_t` (`pulse/proplist.h` is
not part of the sources under review): set, merge, replace. -/
def PA_UPDATE_SET : Nat := 0
def PA_UPDATE_MERGE : Nat := 1
def PA_UPDATE_REPLACE : Nat := 2

/-- Modelled from the spec: `pa_context_flags_t` (`pulse/def.h` is not
part of the sources under review): two flag bits, `NO_AUTOSPAWN` and
`NO_FAIL`. -/
def PA_CONTEXT_NOAUTOSPAWN : Nat := 1
def PA_CONTEXT_NOFAIL : Nat := 2

/-- A tagged frame queued on the outbound pstream: command code, tag,
and the 32-bit payload words the core itself wrote. -/
structure Frame where
  command : Nat
  tag : Nat
deriving DecidableEq, Repr

/-- Client configuration fields of `pa_client_conf` that `context.c`
reads. -/
structure Conf where
  autospawn : Bool
  defaultServer : Option String
  autoConnectLocalhost : Bool
  autoConnectDisplay : Bool
deriving DecidableEq, Repr

/-- The fields of `struct pa_context` that the verified functions read
and write.  Collaborator objects are modelled by the observations the
core makes of them: `pstream`/`pdispatch`/`client` record presence,
`pstreamPending`/`pdispatchPending` the collaborators' pending
predicates, `shmEnabled` the last `pa_pstream_enable_shm` argument
(`none` before any call). -/
structure Context where
  state : ContextState
  error : Nat
  version : Nat
  ctag : Nat
  doShm : Bool
  isLocal : Bool
  mempoolShared : Bool
  shmEnabled : Option Bool
  clientIndex : Nat
  proplist : List (String × String)
  streams : List StreamState
  operations : List OpState
  detachedOps : List OpState
  pdispatch : Bool
  pstream : Bool
  client : Bool
  pstreamPending : Bool
  pdispatchPending : Bool
  stateCallback : Bool
  eventCallback : Bool
  subscribeCallback : Bool
  extDeviceManagerCallback : Bool
  extStreamRestoreCallback : Bool
  serverList : List String
  server : Option String
  noFail : Bool
  serverSpecified : Bool
  doAutospawn : Bool
  spawnApiSet : Bool
  forked : Bool
  sent : List Frame
  pendingReplies : List Nat
  conf : Conf
deriving DecidableEq, Repr

/-- `reset_callbacks`: clear the five per-context callback slots. -/
def reset_callbacks (c : Context) : Context :=
  { c with
    stateCallback := false
    eventCallback := false
    subscribeCallback := false
    extDeviceManagerCallback := false
    extStreamRestoreCallback := false }

/-- `context_unlink`: route every registered stream to Failed (when the
context failed) or Terminated, cancel all operations (they survive,
detached, with state Cancelled), release the dispatch table, the
framed-stream and the socket client, and clear the callbacks. -/
def context_unlink (c : Context) : Context :=
  let c := { c with
    streams := c.streams.map (fun _ =>
      if c.state = ContextState.failed then StreamState.failed
      else StreamState.terminated) }
  let c := { c with
    detachedOps := c.detachedOps ++ c.operations.map (fun _ => OpState.cancelled)
    operations := [] }
  let c := { c with pdispatch := false, pdispatchPending := false }
  let c := { c with pstream := false, pstreamPending := false }
  let c := { c with client := false }
  reset_callbacks c

/-- `pa_context_set_state`: no-op when the state is unchanged; otherwise
store the new state (the state callback, external to the model, is
notified here) and, on entering Failed or Terminated, run
`context_unlink`. -/
def pa_context_set_state (c : Context) (st : ContextState) : Context :=
  if c.state = st then c
  else
    let c := { c with state := st }
    if st = ContextState.failed ∨ st = ContextState.terminated then
      context_unlink c
    else c

/-- `pa_context_set_error`: store the last error code. -/
def pa_context_set_error (c : Context) (error : Nat) : Context :=
  { c with error := error }

/-- `pa_context_fail`: store the error and move to Failed. -/
def pa_context_fail (c : Context) (error : Nat) : Context :=
  pa_context_set_state (pa_context_set_error c error) ContextState.failed

/-- Modelled from the spec: `PA_CONTEXT_IS_GOOD` lives in `pulse/def.h`,
which is not among the sources under review.  Per §6.1, `disconnect()`
acts "from any non-terminal state", so a good state is any state other
than Failed and Terminated. -/
def PA_CONTEXT_IS_GOOD (st : ContextState) : Bool :=
  st ≠ ContextState.failed ∧ st ≠ ContextState.terminated

/-- `pa_context_disconnect`: guard against forked inheritance, then
move any good-state context to Terminated. -/
def pa_context_disconnect (c : Context) : Context :=
  if c.forked then c
  else if PA_CONTEXT_IS_GOOD c.state then
    pa_context_set_state c ContextState.terminated
  else c

/-- The tail of `pa_context_handle_error` once `err` is assigned: `OK`
itself is illegal and fails with protocol; a code at or above the max is
coerced to unknown; then the `fail` flag decides between failing the
context and merely storing the last error. -/
def handle_error_code (c : Context) (err : Nat) (fail : Bool) : Int × Context :=
  if err = PA_OK then (-1, pa_context_fail c PA_ERR_PROTOCOL)
  else
    let err := if err ≥ PA_ERR_MAX then PA_ERR_UNKNOWN else err
    if fail then (-1, pa_context_fail c err)
    else (0, pa_context_set_error c err)

/-- `pa_context_handle_error`: a tagstruct is the list of its remaining
32-bit words; `pa_tagstruct_getu32` followed by `pa_tagstruct_eof`
succeeds exactly on a one-element payload.  Returns the C result
(`0` or `-1`) with the updated context. -/
def pa_context_handle_error (c : Context) (command : Nat)
    (t : List Nat) (fail : Bool) : Int × Context :=
  if command = PA_COMMAND_ERROR then
    match t with
    | [err] => handle_error_code c err fail
    | _ => (-1, pa_context_fail c PA_ERR_PROTOCOL)
  else if command = PA_COMMAND_TIMEOUT then
    handle_error_code c PA_ERR_TIMEOUT fail
  else (-1, pa_context_fail c PA_ERR_PROTOCOL)

/-- `pa_tagstruct_command`: allocate a tagstruct holding the command and
the next tag, post-incrementing the context's tag counter.  Returns the
frame header together with the updated context. -/
def pa_tagstruct_command (c : Context) (command : Nat) : Frame × Context :=
  (⟨command, c.ctag⟩, { c with ctag := c.ctag + 1 })

/-- `pa_pstream_send_tagstruct`: queue the frame on the outbound
pstream. -/
def pa_pstream_send_tagstruct (c : Context) (f : Frame) : Context :=
  { c with sent := c.sent ++ [f], pstreamPending := true }

/-- `pa_pdispatch_register_reply`: record the tag in the reply table. -/
def pa_pdispatch_register_reply (c : Context) (tag : Nat) : Context :=
  { c with pendingReplies := c.pendingReplies ++ [tag], pdispatchPending := true }

/-- `pa_pstream_enable_shm`: announce the SHM decision to the
framed-stream; the model records the announced value. -/
def pa_pstream_enable_shm (c : Context) (enable : Bool) : Context :=
  { c with shmEnabled := some enable }

/-- `setup_context`: create pstream and pdispatch on the fresh byte
channel, compute local SHM eligibility (`pa_mempool_is_shared(mempool)
&& is_local`), send AUTH with the combined version/SHM word and the
cookie, register its reply, and enter Authorizing. -/
def setup_context (c : Context) : Context :=
  let c := { c with pstream := true }
  let c := { c with pdispatch := true }
  let c := { c with doShm := c.mempoolShared && c.isLocal }
  let (t, c) := pa_tagstruct_command c PA_COMMAND_AUTH
  let c := pa_pstream_send_tagstruct c t
  let c := pa_pdispatch_register_reply c t.tag
  pa_context_set_state c ContextState.authorizing

/-- The Authorizing branch of `setup_complete_callback` on a REPLY:
decode the 32-bit version word, fail with *version* below 8, strip the
SHM top bit at ≥ 13, settle the SHM decision (peer version and
advertisement, then the peer-credential UID check when credential
passing is compiled in), announce it to the pstream, send
SET_CLIENT_NAME and move to SettingName.  `credsAvail` is the
`HAVE_CREDS` build condition; `creds` the credentials attached to the
packet (`pa_pdispatch_creds`); `localUid` the result of `getuid()`. -/
def setup_complete_auth (c : Context) (t : List Nat)
    (credsAvail : Bool) (creds : Option Nat) (localUid : Nat) : Context :=
  match t with
  | v :: rest =>
    let c := { c with version := v }
    if rest ≠ [] then pa_context_fail c PA_ERR_PROTOCOL
    else if c.version < 8 then pa_context_fail c PA_ERR_VERSION
    else
      let shm_on_remote :=
        if c.version ≥ 13 then decide (v / 2147483648 % 2 = 1) else false
      let c :=
        if c.version ≥ 13 then { c with version := c.version % 2147483648 } else c
      let c :=
        if c.doShm then
          if c.version < 10 ∨ (c.version ≥ 13 ∧ ¬shm_on_remote) then
            { c with doShm := false }
          else c
        else c
      let c :=
        if c.doShm then
          if credsAvail then
            match creds with
            | none => { c with doShm := false }
            | some uid => if localUid ≠ uid then { c with doShm := false } else c
          else c
        else c
      let c := pa_pstream_enable_shm c c.doShm
      let (reply, c) := pa_tagstruct_command c PA_COMMAND_SET_CLIENT_NAME
      let c := pa_pstream_send_tagstruct c reply
      let c := pa_pdispatch_register_reply c reply.tag
      pa_context_set_state c ContextState.settingName
  | [] => pa_context_fail c PA_ERR_PROTOCOL

/-- The SettingName branch of `setup_complete_callback` on a REPLY: at
peer version ≥ 13 decode and store the client index, which must not be
the invalid sentinel; then enter Ready. -/
def setup_complete_setting_name (c : Context) (t : List Nat) : Context :=
  if c.version ≥ 13 then
    match t with
    | idx :: rest =>
      let c := { c with clientIndex := idx }
      if idx = PA_INVALID_INDEX ∨ rest ≠ [] then pa_context_fail c PA_ERR_PROTOCOL
      else pa_context_set_state c ContextState.ready
    | [] => pa_context_fail c PA_ERR_PROTOCOL
  else
    match t with
    | [] => pa_context_set_state c ContextState.ready
    | _ => pa_context_fail c PA_ERR_PROTOCOL

/-- `setup_complete_callback`: non-REPLY commands go through
`pa_context_handle_error` with the fail flag set; REPLYs are decoded
according to the current handshake state. -/
def setup_complete_callback (c : Context) (command : Nat) (t : List Nat)
    (credsAvail : Bool) (creds : Option Nat) (localUid : Nat) : Context :=
  if command ≠ PA_COMMAND_REPLY then
    (pa_context_handle_error c command t true).2
  else
    match c.state with
    | ContextState.authorizing => setup_complete_auth c t credsAvail creds localUid
    | ContextState.settingName => setup_complete_setting_name c t
    | _ => c

/-! ## Endpoint list building and `pa_context_connect` -/

/-- `PA_NATIVE_DEFAULT_UNIX_SOCKET` (`pulsecore/native-common.h`). -/
def PA_NATIVE_DEFAULT_UNIX_SOCKET : String := "native"

/-- `PA_SYSTEM_RUNTIME_PATH PA_PATH_SEP PA_NATIVE_DEFAULT_UNIX_SOCKET`:
the system-wide instance's socket path literal. -/
def systemWideSocket : String := "/var/run/pulse/native"

/-- The process environment the endpoint builder reads.  The helpers
`get_very_old_legacy_runtime_dir` / `get_old_legacy_runtime_dir` query
the filesystem (directory exists and is owned by the current UID) and
are only compiled under `ENABLE_LEGACY_RUNTIME_DIR`; their results enter
the model as `Option` values (`none` when disabled, absent or
foreign-owned).  `runtimePath` is `pa_runtime_path(...)`, `display` the
`DISPLAY` environment variable. -/
structure ConnectEnv where
  veryOldLegacyDir : Option String
  oldLegacyDir : Option String
  runtimePath : Option String
  display : Option String
deriving DecidableEq, Repr

/-- `pa_strlist_prepend`: a strlist iterates from its head. -/
def pa_strlist_prepend (l : List String) (s : String) : List String :=
  s :: l

/-- `prepend_per_user`: prepend the very old legacy per-user socket,
then the old legacy one, then the current runtime path's socket, so
that iteration meets the runtime path first. -/
def prepend_per_user (env : ConnectEnv) (l : List String) : List String :=
  let l := match env.veryOldLegacyDir with
    | some legacy_dir =>
        pa_strlist_prepend l (legacy_dir ++ "/" ++ PA_NATIVE_DEFAULT_UNIX_SOCKET)
    | none => l
  let l := match env.oldLegacyDir with
    | some legacy_dir =>
        pa_strlist_prepend l (legacy_dir ++ "/" ++ PA_NATIVE_DEFAULT_UNIX_SOCKET)
    | none => l
  match env.runtimePath with
  | some ufn => pa_strlist_prepend l ufn
  | none => l

/-- `strcspn(d, ":")` applied by `pa_xstrndup`: the part of `DISPLAY`
before the first colon. -/
def displayPrefix (d : String) : String :=
  String.mk (d.toList.takeWhile (fun ch => ch ≠ ':'))

/-- The default-server branch of `pa_context_connect`: build the
candidate list by prepending in reverse priority order. -/
def build_default_server_list (c : Context) (env : ConnectEnv) : List String :=
  let l : List String := c.serverList
  let l :=
    if c.conf.autoConnectDisplay then
      match env.display with
      | some d =>
          let d := displayPrefix d
          if d ≠ "" then pa_strlist_prepend l d else l
      | none => l
    else l
  let l :=
    if c.conf.autoConnectLocalhost then
      let l := pa_strlist_prepend l "tcp6:[::1]"
      pa_strlist_prepend l "tcp4:127.0.0.1"
    else l
  let l := pa_strlist_prepend l systemWideSocket
  prepend_per_user env l

/-- Modelled from the spec: `pa_strlist_parse` (`pulsecore/strlist.c` is
not among the sources under review) parses a comma/whitespace-delimited
list preserving order; an all-delimiter string yields the empty list. -/
def pa_strlist_parse (s : String) : List String :=
  (s.split (fun ch => ch = ',' ∨ ch = ' ' ∨ ch = '\t' ∨ ch = '\n')).filter
    (fun w => w ≠ "")

/-- The "Set up autospawning" block of `pa_context_connect`: enabled
when the `NO_AUTOSPAWN` flag is absent and configuration allows it,
except when running as root (`HAVE_GETUID` assumed present). -/
def connect_setup_autospawn (c : Context) (flags : Nat)
    (spawnApiGiven : Bool) (isRoot : Bool) : Context :=
  if flags &&& PA_CONTEXT_NOAUTOSPAWN = 0 ∧ c.conf.autospawn then
    if isRoot then c
    else
      let c := { c with doAutospawn := true }
      if spawnApiGiven then { c with spawnApiSet := true } else c
  else c

/-- `pa_context_connect` up to (and excluding) the first socket attempt:
argument validation, flag recording, candidate-list construction, the
autospawn decision, and the transition to Connecting.
`try_next_connection`'s socket I/O is outside the model; the function
returns the context as it stands when `try_next_connection` is entered
(or the validation error result).  `isRoot` is `getuid() == 0`. -/
def pa_context_connect (c : Context) (server : Option String)
    (flags : Nat) (spawnApiGiven : Bool) (isRoot : Bool)
    (env : ConnectEnv) : Int × Context :=
  if c.forked then (-1, pa_context_set_error c PA_ERR_FORKED)
  else if c.state ≠ ContextState.unconnected then
    (-1, pa_context_set_error c PA_ERR_BADSTATE)
  else if flags &&& (4294967295 - (PA_CONTEXT_NOAUTOSPAWN ||| PA_CONTEXT_NOFAIL)) ≠ 0 then
    (-1, pa_context_set_error c PA_ERR_INVALID)
  else if server = some "" then
    (-1, pa_context_set_error c PA_ERR_INVALID)
  else
    let c := if server.isSome then { c with conf := { c.conf with autospawn := false } } else c
    let server := if server.isSome then server else c.conf.defaultServer
    let c := { c with noFail := flags &&& PA_CONTEXT_NOFAIL ≠ 0 }
    let c := { c with serverSpecified := server.isSome }
    match server with
    | some s =>
      let parsed := pa_strlist_parse s
      if parsed = [] then (-1, pa_context_fail c PA_ERR_INVALIDSERVER)
      else
        let c := { c with serverList := parsed }
        let c := connect_setup_autospawn c flags spawnApiGiven isRoot
        (0, pa_context_set_state c ContextState.connecting)
    | none =>
      let c := { c with serverList := build_default_server_list c env }
      let c := connect_setup_autospawn c flags spawnApiGiven isRoot
      (0, pa_context_set_state c ContextState.connecting)

/-! ## Autospawn -/

/-- What the OS reports and does around `context_autospawn`: the
`sigaction(SIGCHLD, NULL, &sa)` query (`none` when the call itself
fails), the `fork()` result, and what `waitpid` observes. -/
inductive WaitResult where
  /-- `waitpid` returned `< 0` with `errno == ESRCH` (child already
  reaped). -/
  | esrch
  /-- `waitpid` returned `< 0` with some other errno. -/
  | otherError
  /-- Child exited normally with the given status. -/
  | exited (status : Nat)
  /-- Child did not exit normally (killed by a signal, ...). -/
  | notExited
deriving DecidableEq, Repr

structure Sigchld where
  saNoCldWait : Bool
  handlerIsIgn : Bool
deriving DecidableEq, Repr

structure SpawnEnv where
  sigchld : Option Sigchld
  forkFails : Bool
  wait : WaitResult
deriving DecidableEq, Repr

/-- The outcome of `context_autospawn` in the parent: the C return
value, the updated context, and whether a child was forked. -/
structure SpawnOutcome where
  ret : Int
  ctx : Context
  forkedChild : Bool
deriving Repr

/-- `context_autospawn` (parent side; the child execs away): query the
SIGCHLD disposition — failure is *internal*; `SIG_IGN` or
`SA_NOCLDWAIT` makes `waitpid` unusable, so fail with
*connection-refused* before forking; then fork (failure is *internal*)
and wait for the specific child: an `ESRCH` loss of the child counts as
success, another `waitpid` error is *internal*, and an abnormal or
nonzero exit is *connection-refused*. -/
def context_autospawn (c : Context) (env : SpawnEnv) : SpawnOutcome :=
  match env.sigchld with
  | none => ⟨-1, pa_context_fail c PA_ERR_INTERNAL, false⟩
  | some sa =>
    if sa.saNoCldWait ∨ sa.handlerIsIgn then
      ⟨-1, pa_context_fail c PA_ERR_CONNECTIONREFUSED, false⟩
    else if env.forkFails then
      ⟨-1, pa_context_fail c PA_ERR_INTERNAL, false⟩
    else
      match env.wait with
      | WaitResult.esrch => ⟨0, c, true⟩
      | WaitResult.otherError => ⟨-1, pa_context_fail c PA_ERR_INTERNAL, true⟩
      | WaitResult.exited status =>
          if status ≠ 0 then ⟨-1, pa_context_fail c PA_ERR_CONNECTIONREFUSED, true⟩
          else ⟨0, c, true⟩
      | WaitResult.notExited => ⟨-1, pa_context_fail c PA_ERR_CONNECTIONREFUSED, true⟩

/-! ## Pending work and drain -/

/-- `pa_context_is_pending`'s pending expression: the pstream has queued
bytes, or the reply table is nonempty, or a socket connect is in
flight.  (The leading fork/state validity checks are made by the
callers modelled here before reaching this expression.) -/
def context_pending (c : Context) : Bool :=
  (c.pstream && c.pstreamPending) || (c.pdispatch && c.pdispatchPending) || c.client

/-- One evaluation of `set_dispatch_callbacks`: clear both drain
callbacks, re-install one for each collaborator still pending, and
fire the drain operation's user callback exactly when neither is.
`pdPending` / `psPending` are `pa_pdispatch_is_pending` /
`pa_pstream_is_pending` at this moment. -/
structure DrainStep where
  installedPdispatchCb : Bool
  installedPstreamCb : Bool
  firedUserCallback : Bool
deriving DecidableEq, Repr

def set_dispatch_callbacks (pdPending psPending : Bool) : DrainStep :=
  let done := true
  let (instPd, done) := if pdPending then (true, false) else (false, done)
  let (instPs, done) := if psPending then (true, false) else (false, done)
  ⟨instPd, instPs, done⟩

/-- `pa_context_drain`: reject unless unforked, Ready and pending;
otherwise create the drain operation and run the first
`set_dispatch_callbacks` evaluation.  Returns `none` (with the error
stored) or the first drain step with the updated context. -/
def pa_context_drain (c : Context) : Option DrainStep × Context :=
  if c.forked then (none, pa_context_set_error c PA_ERR_FORKED)
  else if c.state ≠ ContextState.ready then
    (none, pa_context_set_error c PA_ERR_BADSTATE)
  else if ¬context_pending c then
    (none, pa_context_set_error c PA_ERR_BADSTATE)
  else
    let c := { c with operations := c.operations ++ [OpState.running] }
    (some (set_dispatch_callbacks (c.pdispatch && c.pdispatchPending)
      (c.pstream && c.pstreamPending)), c)

/-! ## Proplist operations -/

/-- `pa_context_proplist_update`: validate (fork, mode, Ready,
peer ≥ 13), then allocate an operation, send the tagged
`UPDATE_CLIENT_PROPLIST` frame carrying the mode and the given
property list, and register its reply.  The context's own `proplist`
field is deliberately not touched ("we don't update c->proplist here,
because we don't export that field"). -/
def pa_context_proplist_update (c : Context) (mode : Nat)
    (p : List (String × String)) : Bool × Context :=
  if c.forked then (false, pa_context_set_error c PA_ERR_FORKED)
  else if ¬(mode = PA_UPDATE_SET ∨ mode = PA_UPDATE_MERGE ∨ mode = PA_UPDATE_REPLACE) then
    (false, pa_context_set_error c PA_ERR_INVALID)
  else if c.state ≠ ContextState.ready then
    (false, pa_context_set_error c PA_ERR_BADSTATE)
  else if c.version < 13 then
    (false, pa_context_set_error c PA_ERR_NOTSUPPORTED)
  else
    let c := { c with operations := c.operations ++ [OpState.running] }
    let (t, c) := pa_tagstruct_command c PA_COMMAND_UPDATE_CLIENT_PROPLIST
    let c := pa_pstream_send_tagstruct c t
    let c := pa_pdispatch_register_reply c t.tag
    (true, c)

/-- `pa_context_proplist_remove`: validate (fork, nonempty key array,
Ready, peer ≥ 13), then allocate an operation, send the tagged
`REMOVE_CLIENT_PROPLIST` frame listing the keys, and register its
reply.  As with update, the local `proplist` is deliberately not
touched. -/
def pa_context_proplist_remove (c : Context) (keys : List String) :
    Bool × Context :=
  if c.forked then (false, pa_context_set_error c PA_ERR_FORKED)
  else if keys = [] then (false, pa_context_set_error c PA_ERR_INVALID)
  else if c.state ≠ ContextState.ready then
    (false, pa_context_set_error c PA_ERR_BADSTATE)
  else if c.version < 13 then
    (false, pa_context_set_error c PA_ERR_NOTSUPPORTED)
  else
    let c := { c with operations := c.operations ++ [OpState.running] }
    let (t, c) := pa_tagstruct_command c PA_COMMAND_REMOVE_CLIENT_PROPLIST
    let c := pa_pstream_send_tagstruct c t
    let c := pa_pdispatch_register_reply c t.tag
    (true, c)

/-! ## Concrete contexts for witnesses -/

def baseConf : Conf :=
  { autospawn := false
    defaultServer := none
    autoConnectLocalhost := false
    autoConnectDisplay := false }

/-- A freshly constructed context, as `pa_context_new_with_proplist`
initialises it: Unconnected, error `PA_OK`, invalid client index, empty
registries, no connection resources. -/
def baseCtx : Context :=
  { state := ContextState.unconnected
    error := PA_OK
    version := 0
    ctag := 0
    doShm := false
    isLocal := false
    mempoolShared := false
    shmEnabled := none
    clientIndex := PA_INVALID_INDEX
    proplist := []
    streams := []
    operations := []
    detachedOps := []
    pdispatch := false
    pstream := false
    client := false
    pstreamPending := false
    pdispatchPending := false
    stateCallback := false
    eventCallback := false
    subscribeCallback := false
    extDeviceManagerCallback := false
    extStreamRestoreCallback := false
    serverList := []
    server := none
    noFail := false
    serverSpecified := false
    doAutospawn := false
    spawnApiSet := false
    forked := false
    sent := []
    pendingReplies := []
    conf := baseConf }

/-! ## Theorems -/

/-- `pa_context_set_state` always leaves the context in the requested
state (also when it was already there). -/
theorem pa_context_set_state_state (c : Context) (st : ContextState) :
    (pa_context_set_state c st).state = st := by
  unfold pa_context_set_state
  split
  · next h => exact h
  · split
    · simp [context_unlink, reset_callbacks]
    · rfl

/-- `pa_context_set_state` never touches the fork marker. -/
theorem pa_context_set_state_forked (c : Context) (st : ContextState) :
    (pa_context_set_state c st).forked = c.forked := by
  unfold pa_context_set_state
  split
  · rfl
  · split
    · simp [context_unlink, reset_callbacks]
    · rfl

/-- `pa_context_set_state` never touches the last error code. -/
theorem pa_context_set_state_error (c : Context) (st : ContextState) :
    (pa_context_set_state c st).error = c.error := by
  unfold pa_context_set_state
  split
  · rfl
  · split
    · simp [context_unlink, reset_callbacks]
    · rfl

theorem pa_context_disconnect_eq (c : Context) (hf : c.forked = false)
    (h1 : c.state ≠ ContextState.failed) (h2 : c.state ≠ ContextState.terminated) :
    pa_context_disconnect c = pa_context_set_state c ContextState.terminated := by
  simp [pa_context_disconnect, hf, PA_CONTEXT_IS_GOOD, h1, h2]

theorem pa_context_disconnect_noop (c : Context) (hf : c.forked = false)
    (h : c.state = ContextState.failed ∨ c.state = ContextState.terminated) :
    pa_context_disconnect c = c := by
  rcases h with h | h <;> simp [pa_context_disconnect, hf, PA_CONTEXT_IS_GOOD, h]

/-- C3: from any non-terminal state `pa_context_disconnect` moves the
context to Terminated; from Terminated or Failed it is a no-op, so a
second `disconnect` after a first one changes nothing. -/
theorem disconnect_behaviour (c : Context) (hf : c.forked = false) :
    ((c.state ≠ ContextState.failed ∧ c.state ≠ ContextState.terminated) →
      (pa_context_disconnect c).state = ContextState.terminated) ∧
    ((c.state = ContextState.failed ∨ c.state = ContextState.terminated) →
      pa_context_disconnect c = c) ∧
    pa_context_disconnect (pa_context_disconnect c) = pa_context_disconnect c := by
  refine ⟨?_, pa_context_disconnect_noop c hf, ?_⟩
  · intro ⟨h1, h2⟩
    rw [pa_context_disconnect_eq c hf h1 h2]
    exact pa_context_set_state_state c ContextState.terminated
  · by_cases h1 : c.state = ContextState.failed
    · rw [pa_context_disconnect_noop c hf (Or.inl h1)]
      exact pa_context_disconnect_noop c hf (Or.inl h1)
    · by_cases h2 : c.state = ContextState.terminated
      · rw [pa_context_disconnect_noop c hf (Or.inr h2)]
        exact pa_context_disconnect_noop c hf (Or.inr h2)
      · rw [pa_context_disconnect_eq c hf h1 h2]
        apply pa_context_disconnect_noop
        · rw [pa_context_set_state_forked]
          exact hf
        · rw [pa_context_set_state_state]
          exact Or.inr rfl

/-- C3 witness: a Ready context disconnects to Terminated, a second
disconnect is a no-op, and disconnecting a Failed context changes
nothing. -/
theorem disconnect_behaviour_witness :
    (({ baseCtx with state := ContextState.ready } : Context).state ≠ ContextState.failed ∧
      ({ baseCtx with state := ContextState.ready } : Context).state ≠ ContextState.terminated) ∧
    (pa_context_disconnect { baseCtx with state := ContextState.ready }).state =
      ContextState.terminated ∧
    pa_context_disconnect { baseCtx with state := ContextState.failed } =
      { baseCtx with state := ContextState.failed } := by
  have h1 := disconnect_behaviour { baseCtx with state := ContextState.ready } (by decide)
  have h2 := disconnect_behaviour { baseCtx with state := ContextState.failed } (by decide)
  exact ⟨by decide, h1.1 (by decide), h2.2.1 (Or.inl rfl)⟩

/-- C4: every transition into Failed or Terminated runs `context_unlink`:
registered streams all move to Failed (when the context failed) or
Terminated, every operation anchored on the context is cancelled and
detached, and the dispatch table, framed-stream, socket client and all
per-context callbacks are released and cleared. -/
theorem terminal_transition_unlinks (c : Context) (st : ContextState)
    (hterm : st = ContextState.failed ∨ st = ContextState.terminated)
    (hne : c.state ≠ st) :
    (pa_context_set_state c st).state = st ∧
    (pa_context_set_state c st).pdispatch = false ∧
    (pa_context_set_state c st).pstream = false ∧
    (pa_context_set_state c st).client = false ∧
    (pa_context_set_state c st).operations = [] ∧
    (pa_context_set_state c st).detachedOps =
      c.detachedOps ++ c.operations.map (fun _ => OpState.cancelled) ∧
    (pa_context_set_state c st).streams =
      c.streams.map (fun _ =>
        if st = ContextState.failed then StreamState.failed
        else StreamState.terminated) ∧
    (pa_context_set_state c st).stateCallback = false ∧
    (pa_context_set_state c st).eventCallback = false ∧
    (pa_context_set_state c st).subscribeCallback = false ∧
    (pa_context_set_state c st).extDeviceManagerCallback = false ∧
    (pa_context_set_state c st).extStreamRestoreCallback = false := by
  have hunf : pa_context_set_state c st = context_unlink { c with state := st } := by
    rw [pa_context_set_state, if_neg hne, if_pos hterm]
  rw [hunf]
  simp [context_unlink, reset_callbacks]

/-- C4 witness: a Ready context with a stream, an operation and all
connection resources, failed via `pa_context_fail`, ends up Failed with
everything unlinked. -/
theorem terminal_transition_unlinks_witness :
    (ContextState.failed = ContextState.failed ∨
      ContextState.failed = ContextState.terminated) ∧
    ({ baseCtx with
        state := ContextState.ready
        streams := [StreamState.ready]
        operations := [OpState.running]
        pdispatch := true, pstream := true, client := true
        stateCallback := true } : Context).state ≠ ContextState.failed ∧
    (pa_context_set_state
      { baseCtx with
        state := ContextState.ready
        streams := [StreamState.ready]
        operations := [OpState.running]
        pdispatch := true, pstream := true, client := true
        stateCallback := true } ContextState.failed).streams =
      [StreamState.failed] := by
  refine ⟨Or.inl rfl, by decide, ?_⟩
  have h := terminal_transition_unlinks
    { baseCtx with
      state := ContextState.ready
      streams := [StreamState.ready]
      operations := [OpState.running]
      pdispatch := true, pstream := true, client := true
      stateCallback := true } ContextState.failed (Or.inl rfl) (by decide)
  rw [h.2.2.2.2.2.2.1]
  rfl

/-- C5: `pa_context_handle_error` on a TIMEOUT command uses the
*timeout* code; an ERROR whose payload fails to decode (not exactly one
32-bit word) or decodes to `PA_OK`, and any command other than ERROR or
TIMEOUT, fail the context with *protocol* regardless of the fail flag;
a code at or above `PA_ERR_MAX` is coerced to *unknown*; with the fail
flag set the context is failed with the resulting code, otherwise the
code is only stored as the last error and the state is untouched. -/
theorem handle_error_behaviour (c : Context) (command err : Nat)
    (t : List Nat) (fl : Bool) :
    (pa_context_handle_error c PA_COMMAND_TIMEOUT t fl =
      if fl then (-1, pa_context_fail c PA_ERR_TIMEOUT)
      else (0, pa_context_set_error c PA_ERR_TIMEOUT)) ∧
    (t.length ≠ 1 →
      pa_context_handle_error c PA_COMMAND_ERROR t fl =
        (-1, pa_context_fail c PA_ERR_PROTOCOL)) ∧
    (pa_context_handle_error c PA_COMMAND_ERROR [PA_OK] fl =
      (-1, pa_context_fail c PA_ERR_PROTOCOL)) ∧
    (command ≠ PA_COMMAND_ERROR → command ≠ PA_COMMAND_TIMEOUT →
      pa_context_handle_error c command t fl =
        (-1, pa_context_fail c PA_ERR_PROTOCOL)) ∧
    (err ≠ PA_OK →
      pa_context_handle_error c PA_COMMAND_ERROR [err] fl =
        (let coerced := if err ≥ PA_ERR_MAX then PA_ERR_UNKNOWN else err
         if fl then (-1, pa_context_fail c coerced)
         else (0, pa_context_set_error c coerced))) ∧
    (∀ e, pa_context_set_error c e = { c with error := e }) ∧
    (∀ e, (pa_context_fail c e).state = ContextState.failed ∧
      (pa_context_fail c e).error = e) := by
  refine ⟨?_, ?_, ?_, ?_, ?_, fun e => rfl, fun e => ?_⟩
  · simp [pa_context_handle_error, PA_COMMAND_ERROR, PA_COMMAND_TIMEOUT,
      handle_error_code, PA_ERR_TIMEOUT, PA_OK, PA_ERR_MAX]
  · intro hlen
    match t with
    | [] => simp [pa_context_handle_error, PA_COMMAND_ERROR]
    | [x] => simp at hlen
    | x :: y :: rest => simp [pa_context_handle_error, PA_COMMAND_ERROR]
  · simp [pa_context_handle_error, PA_COMMAND_ERROR, handle_error_code, PA_OK]
  · intro h1 h2
    simp [pa_context_handle_error, h1, h2]
  · intro hne
    simp only [PA_OK] at hne
    simp [pa_context_handle_error, PA_COMMAND_ERROR, handle_error_code,
      PA_OK, hne]
  · exact ⟨by rw [pa_context_fail, pa_context_set_state_state],
      by rw [pa_context_fail, pa_context_set_state_error]; rfl⟩

/-- C5 witness: a TIMEOUT with the fail flag fails with *timeout*; an
undecodable ERROR payload fails with *protocol*; an out-of-range code
(30) without the fail flag is stored as *unknown*. -/
theorem handle_error_behaviour_witness :
    pa_context_handle_error baseCtx PA_COMMAND_TIMEOUT [] true =
      (-1, pa_context_fail baseCtx PA_ERR_TIMEOUT) ∧
    pa_context_handle_error baseCtx PA_COMMAND_ERROR [] true =
      (-1, pa_context_fail baseCtx PA_ERR_PROTOCOL) ∧
    pa_context_handle_error baseCtx PA_COMMAND_ERROR [30] false =
      (0, pa_context_set_error baseCtx PA_ERR_UNKNOWN) := by
  refine ⟨?_, ?_, ?_⟩
  · simpa using (handle_error_behaviour baseCtx 5 30 [] true).1
  · exact (handle_error_behaviour baseCtx 5 30 [] true).2.1 (by decide)
  · have h := (handle_error_behaviour baseCtx 5 30 [] false).2.2.2.2.1 (by decide)
    simpa [PA_ERR_MAX, PA_ERR_UNKNOWN] using h

/-- C6: `pa_context_drain` rejects with a bad-state error unless the
context is Ready and pending work exists; the drain operation's user
callback is fired (by any evaluation of `set_dispatch_callbacks`) only
at a moment when neither the pstream nor the pdispatch reports pending
work. -/
theorem drain_behaviour (c : Context) (pd ps : Bool) (hf : c.forked = false) :
    ((c.state ≠ ContextState.ready ∨ context_pending c = false) →
      pa_context_drain c = (none, pa_context_set_error c PA_ERR_BADSTATE)) ∧
    ((set_dispatch_callbacks pd ps).firedUserCallback = true →
      pd = false ∧ ps = false) := by
  constructor
  · intro h
    by_cases hs : c.state = ContextState.ready
    · rcases h with h | h
      · exact absurd hs h
      · simp [pa_context_drain, hf, hs, h]
    · simp [pa_context_drain, hf, hs]
  · intro h
    cases pd <;> cases ps <;> simp_all [set_dispatch_callbacks]

/-- C6 witness: a Ready context with nothing pending is rejected, and a
drain evaluation that fires saw both collaborators idle. -/
theorem drain_behaviour_witness :
    pa_context_drain { baseCtx with state := ContextState.ready } =
      (none, pa_context_set_error { baseCtx with state := ContextState.ready }
        PA_ERR_BADSTATE) ∧
    ((false : Bool) = false ∧ (false : Bool) = false) := by
  have h := drain_behaviour { baseCtx with state := ContextState.ready }
    false false (by decide)
  exact ⟨h.1 (Or.inr (by decide)), h.2 (by decide)⟩

/-- C7: `pa_context_connect` rejects, returning `-1` with only the last
error set and the state untouched: *bad-state* outside Unconnected,
*invalid* on flag bits beyond `NO_AUTOSPAWN|NO_FAIL`, *invalid* on a
non-null empty server string. -/
theorem connect_validation (c : Context) (server : Option String)
    (flags : Nat) (sg root : Bool) (env : ConnectEnv)
    (hf : c.forked = false) :
    (c.state ≠ ContextState.unconnected →
      pa_context_connect c server flags sg root env =
        (-1, pa_context_set_error c PA_ERR_BADSTATE)) ∧
    (c.state = ContextState.unconnected → flags &&& 4294967292 ≠ 0 →
      pa_context_connect c server flags sg root env =
        (-1, pa_context_set_error c PA_ERR_INVALID)) ∧
    (c.state = ContextState.unconnected → flags &&& 4294967292 = 0 →
      server = some "" →
      pa_context_connect c server flags sg root env =
        (-1, pa_context_set_error c PA_ERR_INVALID)) ∧
    (∀ e, pa_context_set_error c e = { c with error := e } ∧
      (pa_context_set_error c e).state = c.state) := by
  have hmask : (4294967295 - (PA_CONTEXT_NOAUTOSPAWN ||| PA_CONTEXT_NOFAIL)) =
      4294967292 := by decide
  refine ⟨?_, ?_, ?_, fun e => ⟨rfl, rfl⟩⟩
  · intro h
    simp [pa_context_connect, hf, h]
  · intro hs hbad
    simp [pa_context_connect, hf, hs, hmask, hbad]
  · intro hs hok hsrv
    simp [pa_context_connect, hf, hs, hmask, hok, hsrv]

/-- C7 witness: a Connecting context is rejected with *bad-state*; flag
bit 4 is rejected with *invalid*; a non-null empty server string is
rejected with *invalid*. -/
theorem connect_validation_witness :
    pa_context_connect { baseCtx with state := ContextState.connecting }
        none 0 false false ⟨none, none, none, none⟩ =
      (-1, pa_context_set_error { baseCtx with state := ContextState.connecting }
        PA_ERR_BADSTATE) ∧
    pa_context_connect baseCtx none 4 false false ⟨none, none, none, none⟩ =
      (-1, pa_context_set_error baseCtx PA_ERR_INVALID) ∧
    pa_context_connect baseCtx (some "") 0 false false ⟨none, none, none, none⟩ =
      (-1, pa_context_set_error baseCtx PA_ERR_INVALID) := by
  refine ⟨?_, ?_, ?_⟩
  · exact (connect_validation { baseCtx with state := ContextState.connecting }
      none 0 false false ⟨none, none, none, none⟩ (by decide)).1 (by decide)
  · exact (connect_validation baseCtx none 4 false false
      ⟨none, none, none, none⟩ (by decide)).2.1 rfl (by decide)
  · exact (connect_validation baseCtx (some "") 0 false false
      ⟨none, none, none, none⟩ (by decide)).2.2.1 rfl (by decide) rfl

/-- C9: when the queried SIGCHLD disposition is `SIG_IGN` or carries
`SA_NOCLDWAIT`, `context_autospawn` fails the context with
*connection-refused* and no child is forked. -/
theorem autospawn_sigchld_blocked (c : Context) (env : SpawnEnv) (sa : Sigchld)
    (hsa : env.sigchld = some sa)
    (hblocked : sa.saNoCldWait = true ∨ sa.handlerIsIgn = true) :
    (context_autospawn c env).ret = -1 ∧
    (context_autospawn c env).forkedChild = false ∧
    (context_autospawn c env).ctx.state = ContextState.failed ∧
    (context_autospawn c env).ctx.error = PA_ERR_CONNECTIONREFUSED := by
  have hres : context_autospawn c env =
      ⟨-1, pa_context_fail c PA_ERR_CONNECTIONREFUSED, false⟩ := by
    unfold context_autospawn
    rw [hsa]
    simp only []
    rw [if_pos]
    rcases hblocked with h | h <;> simp [h]
  rw [hres]
  refine ⟨rfl, rfl, ?_, ?_⟩
  · exact pa_context_set_state_state _ _
  · rw [pa_context_fail, pa_context_set_state_error]
    rfl

/-- C9 witness: with `SA_NOCLDWAIT` set, autospawn fails with
*connection-refused* and does not fork. -/
theorem autospawn_sigchld_blocked_witness :
    (context_autospawn baseCtx
      ⟨some ⟨true, false⟩, false, WaitResult.exited 0⟩).ret = -1 ∧
    (context_autospawn baseCtx
      ⟨some ⟨true, false⟩, false, WaitResult.exited 0⟩).forkedChild = false ∧
    (context_autospawn baseCtx
      ⟨some ⟨true, false⟩, false, WaitResult.exited 0⟩).ctx.state =
      ContextState.failed ∧
    (context_autospawn baseCtx
      ⟨some ⟨true, false⟩, false, WaitResult.exited 0⟩).ctx.error =
      PA_ERR_CONNECTIONREFUSED :=
  autospawn_sigchld_blocked baseCtx
    ⟨some ⟨true, false⟩, false, WaitResult.exited 0⟩ ⟨true, false⟩ rfl
    (Or.inl rfl)

/-- C10: `pa_context_proplist_update` and `pa_context_proplist_remove`
leave the context's locally held property list (and its state)
untouched for every mode and key set; on success the only wire effect
is one tagged frame of the corresponding command plus its registered
reply. -/
theorem proplist_ops_frame_effect (c : Context) (mode : Nat)
    (p : List (String × String)) (keys : List String) :
    ((pa_context_proplist_update c mode p).2.proplist = c.proplist ∧
     (pa_context_proplist_update c mode p).2.state = c.state) ∧
    ((pa_context_proplist_remove c keys).2.proplist = c.proplist ∧
     (pa_context_proplist_remove c keys).2.state = c.state) ∧
    ((pa_context_proplist_update c mode p).1 = true →
      (pa_context_proplist_update c mode p).2.sent =
        c.sent ++ [⟨PA_COMMAND_UPDATE_CLIENT_PROPLIST, c.ctag⟩] ∧
      (pa_context_proplist_update c mode p).2.pendingReplies =
        c.pendingReplies ++ [c.ctag]) ∧
    ((pa_context_proplist_remove c keys).1 = true →
      (pa_context_proplist_remove c keys).2.sent =
        c.sent ++ [⟨PA_COMMAND_REMOVE_CLIENT_PROPLIST, c.ctag⟩] ∧
      (pa_context_proplist_remove c keys).2.pendingReplies =
        c.pendingReplies ++ [c.ctag]) := by
  refine ⟨⟨?_, ?_⟩, ⟨?_, ?_⟩, ?_, ?_⟩ <;>
    simp only [pa_context_proplist_update, pa_context_proplist_remove,
      pa_tagstruct_command, pa_pstream_send_tagstruct,
      pa_pdispatch_register_reply, pa_context_set_error] <;>
    split_ifs <;> simp

/-- C10 witness: a Ready peer-version-13 context keeps its property
list and gains exactly one update frame and one registered reply. -/
theorem proplist_ops_frame_effect_witness :
    (pa_context_proplist_update
        { baseCtx with
          state := ContextState.ready
          version := 13
          proplist := [("application.name", "x")] }
        PA_UPDATE_SET []).2.proplist = [("application.name", "x")] ∧
    (pa_context_proplist_update
        { baseCtx with
          state := ContextState.ready
          version := 13
          proplist := [("application.name", "x")] }
        PA_UPDATE_SET []).2.sent =
      [⟨PA_COMMAND_UPDATE_CLIENT_PROPLIST, 0⟩] := by
  have h := proplist_ops_frame_effect
    { baseCtx with
      state := ContextState.ready
      version := 13
      proplist := [("application.name", "x")] }
    PA_UPDATE_SET [] ["k"]
  refine ⟨h.1.1, ?_⟩
  have h2 := (h.2.2.1 (by decide)).1
  simpa using h2

/-- `pa_context_set_state` into a non-terminal state only stores the
state. -/
theorem pa_context_set_state_nonterminal (c : Context) (st : ContextState)
    (h1 : st ≠ ContextState.failed) (h2 : st ≠ ContextState.terminated) :
    pa_context_set_state c st = { c with state := st } := by
  unfold pa_context_set_state
  split
  · next h => subst h; rfl
  · rw [if_neg]
    rintro (h | h)
    · exact h1 h
    · exact h2 h

/-- `pa_context_set_state` never touches the recorded SHM decision. -/
theorem pa_context_set_state_shmEnabled (c : Context) (st : ContextState) :
    (pa_context_set_state c st).shmEnabled = c.shmEnabled := by
  unfold pa_context_set_state
  split
  · rfl
  · split
    · simp [context_unlink, reset_callbacks]
    · rfl

/-- What `setup_context` does to the context, in one record update. -/
theorem setup_context_eq (c : Context) :
    setup_context c =
      { c with
        pstream := true
        pdispatch := true
        doShm := c.mempoolShared && c.isLocal
        ctag := c.ctag + 1
        sent := c.sent ++ [⟨PA_COMMAND_AUTH, c.ctag⟩]
        pstreamPending := true
        pendingReplies := c.pendingReplies ++ [c.ctag]
        pdispatchPending := true
        state := ContextState.authorizing } := by
  simp [setup_context, pa_tagstruct_command, pa_pstream_send_tagstruct,
    pa_pdispatch_register_reply,
    pa_context_set_state_nonterminal _ ContextState.authorizing
      (by decide) (by decide)]

/-- A REPLY arriving while Authorizing is handled by the Authorizing
branch of `setup_complete_callback`. -/
theorem setup_complete_callback_reply_auth (c : Context) (t : List Nat)
    (credsAvail : Bool) (creds : Option Nat) (localUid : Nat)
    (hst : c.state = ContextState.authorizing) :
    setup_complete_callback c PA_COMMAND_REPLY t credsAvail creds localUid =
      setup_complete_auth c t credsAvail creds localUid := by
  unfold setup_complete_callback
  rw [if_neg (by simp)]
  split <;> simp_all

set_option maxHeartbeats 1600000 in
/-- The SHM value `setup_complete_auth` announces to the pstream when
the version word passes the minimum check, as a function of the local
eligibility and the decoded word. -/
theorem setup_complete_auth_shmEnabled (c : Context) (v : Nat)
    (credsAvail : Bool) (creds : Option Nat) (localUid : Nat)
    (hv8 : ¬ v < 8) :
    (setup_complete_auth c [v] credsAvail creds localUid).shmEnabled =
      some ((c.doShm &&
        !(decide ((if 13 ≤ v then v % 2147483648 else v) < 10) ||
          (decide (13 ≤ (if 13 ≤ v then v % 2147483648 else v)) &&
            !(if 13 ≤ v then decide (v / 2147483648 % 2 = 1) else false)))) &&
        (!credsAvail ||
          match creds with
          | none => false
          | some uid => decide (localUid = uid))) := by
  rcases creds with _ | uid <;>
    cases hds : c.doShm <;> cases credsAvail <;> by_cases h13 : 13 ≤ v <;>
    simp [setup_complete_auth, hv8, h13, hds, pa_tagstruct_command,
      pa_pstream_send_tagstruct, pa_pdispatch_register_reply,
      pa_pstream_enable_shm, pa_context_set_state_shmEnabled] <;>
    split_ifs <;> simp_all <;> omega

/-- C1: for a handshake whose AUTH reply decodes (one 32-bit word `v`
with `v ≥ 8`, so the exchange proceeds), the framed-stream receives
`pa_pstream_enable_shm true` iff the local side was SHM-eligible
(shared mempool and local connection), the negotiated peer version is
at least 10, the peer advertised SHM whenever its negotiated version is
at least 13, and, when credential passing is available, the peer
credentials carry exactly the local UID; otherwise it receives
`false`. -/
theorem shm_enable_decision (c : Context) (v : Nat) (credsAvail : Bool)
    (creds : Option Nat) (localUid : Nat)
    (hv32 : v < 4294967296) (hv8 : 8 ≤ v) :
    ((setup_complete_callback (setup_context c) PA_COMMAND_REPLY [v]
        credsAvail creds localUid).shmEnabled = some true) ↔
      ((c.mempoolShared && c.isLocal) = true ∧
        10 ≤ (if 13 ≤ v then v % 2147483648 else v) ∧
        (13 ≤ (if 13 ≤ v then v % 2147483648 else v) → 2147483648 ≤ v) ∧
        (credsAvail = true → creds = some localUid)) := by
  have hv8' : ¬ v < 8 := by omega
  have hbit : v / 2147483648 % 2 = 1 ↔ 2147483648 ≤ v := by omega
  rw [setup_complete_callback_reply_auth _ _ _ _ _ (by rw [setup_context_eq]),
    setup_complete_auth_shmEnabled _ _ _ _ _ hv8']
  have hds : (setup_context c).doShm = (c.mempoolShared && c.isLocal) := by
    rw [setup_context_eq]
  rw [hds]
  rcases creds with _ | uid <;>
    cases hm : c.mempoolShared <;> cases hl : c.isLocal <;>
    cases credsAvail <;>
    by_cases h13 : 13 ≤ v <;>
    simp_all <;> omega

/-- C1 witness: shared mempool, local connection, peer word
`0x8000001E` (version 30 plus SHM bit), matching peer UID: SHM is
enabled on the framed-stream. -/
theorem shm_enable_decision_witness :
    (setup_complete_callback
      (setup_context { baseCtx with mempoolShared := true, isLocal := true })
      PA_COMMAND_REPLY [2147483678] true (some 1000) 1000).shmEnabled =
      some true := by
  have h := shm_enable_decision { baseCtx with mempoolShared := true, isLocal := true }
    2147483678 true (some 1000) 1000 (by decide) (by decide)
  exact h.mpr ⟨by decide, by decide, fun _ => by decide, fun _ => rfl⟩

/-- The low-version branch of `setup_complete_auth`: a decoded word
below 8 fails with *version*. -/
theorem setup_complete_auth_lowversion (c : Context) (v : Nat)
    (credsAvail : Bool) (creds : Option Nat) (localUid : Nat) (hv : v < 8) :
    setup_complete_auth c [v] credsAvail creds localUid =
      pa_context_fail { c with version := v } PA_ERR_VERSION := by
  simp [setup_complete_auth, hv]

set_option maxHeartbeats 1600000 in
/-- When the decoded word passes the minimum check,
`setup_complete_auth` reaches SettingName with the (possibly masked)
version stored and the error code untouched. -/
theorem setup_complete_auth_success (c : Context) (v : Nat)
    (credsAvail : Bool) (creds : Option Nat) (localUid : Nat)
    (hv8 : ¬ v < 8) :
    (setup_complete_auth c [v] credsAvail creds localUid).state =
      ContextState.settingName ∧
    (setup_complete_auth c [v] credsAvail creds localUid).version =
      (if 13 ≤ v then v % 2147483648 else v) ∧
    (setup_complete_auth c [v] credsAvail creds localUid).error = c.error := by
  rcases creds with _ | uid <;>
    cases hds : c.doShm <;> cases credsAvail <;> by_cases h13 : 13 ≤ v <;>
    simp [setup_complete_auth, hv8, h13, hds, pa_tagstruct_command,
      pa_pstream_send_tagstruct, pa_pdispatch_register_reply,
      pa_pstream_enable_shm,
      pa_context_set_state_nonterminal _ ContextState.settingName
        (by decide) (by decide)] <;>
    split_ifs <;> simp_all

/-- C2 (amended): on the AUTH reply the minimum-version check is
applied to the raw decoded 32-bit word *before* the ≥ 13 top-bit
stripping: the context fails with *version* exactly when the raw word
is below 8; any raw word at or above 8 proceeds toward Ready, with the
lower 31 bits stored as the peer version when the raw word is ≥ 13.
In particular a peer that does not set the SHM bit fails at version 7
and proceeds at version 8. -/
theorem auth_version_check (c : Context) (v : Nat) (credsAvail : Bool)
    (creds : Option Nat) (localUid : Nat)
    (hst : c.state = ContextState.authorizing) (hv32 : v < 4294967296) :
    (((setup_complete_callback c PA_COMMAND_REPLY [v] credsAvail creds
        localUid).state = ContextState.failed ∧
      (setup_complete_callback c PA_COMMAND_REPLY [v] credsAvail creds
        localUid).error = PA_ERR_VERSION) ↔ v < 8) ∧
    (8 ≤ v →
      (setup_complete_callback c PA_COMMAND_REPLY [v] credsAvail creds
        localUid).state = ContextState.settingName ∧
      (setup_complete_callback c PA_COMMAND_REPLY [v] credsAvail creds
        localUid).version = (if 13 ≤ v then v % 2147483648 else v)) := by
  rw [setup_complete_callback_reply_auth _ _ _ _ _ hst]
  by_cases hv : v < 8
  · rw [setup_complete_auth_lowversion _ _ _ _ _ hv]
    refine ⟨⟨fun _ => hv, fun _ => ⟨?_, ?_⟩⟩, fun h8 => absurd hv (by omega)⟩
    · exact pa_context_set_state_state _ _
    · rw [pa_context_fail, pa_context_set_state_error]
      rfl
  · have hs := setup_complete_auth_success c v credsAvail creds localUid hv
    refine ⟨⟨fun hcon => ?_, fun h => absurd h hv⟩, fun _ => ⟨hs.1, hs.2.1⟩⟩
    rw [hs.1] at hcon
    exact absurd hcon.1 (by decide)

/-- C2 counterexample: the decoded word `0x80000007` (SHM bit set, low
31 bits 7) has negotiated peer version 7 < 8, yet the context does not
fail with *version*: it proceeds to SettingName.  The claim demands a
*version* failure here regardless of the SHM bit. -/
theorem auth_version_check_counterexample :
    ((if 13 ≤ 2147483655 then 2147483655 % 2147483648 else 2147483655) < 8) ∧
    (setup_complete_callback { baseCtx with state := ContextState.authorizing }
      PA_COMMAND_REPLY [2147483655] false none 0).state =
      ContextState.settingName ∧
    (setup_complete_callback { baseCtx with state := ContextState.authorizing }
      PA_COMMAND_REPLY [2147483655] false none 0).error ≠ PA_ERR_VERSION := by
  decide

/-- C2 witness: a plain version-7 word fails with *version*; a plain
version-8 word proceeds to SettingName. -/
theorem auth_version_check_witness :
    (setup_complete_callback { baseCtx with state := ContextState.authorizing }
      PA_COMMAND_REPLY [7] false none 0).state = ContextState.failed ∧
    (setup_complete_callback { baseCtx with state := ContextState.authorizing }
      PA_COMMAND_REPLY [7] false none 0).error = PA_ERR_VERSION ∧
    (setup_complete_callback { baseCtx with state := ContextState.authorizing }
      PA_COMMAND_REPLY [8] false none 0).state = ContextState.settingName := by
  have h7 := auth_version_check { baseCtx with state := ContextState.authorizing }
    7 false none 0 rfl (by decide)
  have h8 := auth_version_check { baseCtx with state := ContextState.authorizing }
    8 false none 0 rfl (by decide)
  exact ⟨(h7.1.mpr (by decide)).1, (h7.1.mpr (by decide)).2,
    (h8.2 (by decide)).1⟩

set_option maxHeartbeats 1600000 in
/-- C8 (amended): with no server string and no configured default, the
candidate list is consumed in this order: the current runtime path's
socket first, then — when legacy mode is enabled and the directories
qualify — the `/tmp` per-user legacy socket and then the
home-directory `.pulse` legacy socket, then the system-wide local
socket, then `tcp4:127.0.0.1` and `tcp6:[::1]` when localhost
auto-connect is enabled, then the DISPLAY-derived host (the part of
`DISPLAY` before the first colon) when display auto-connect is
enabled. -/
theorem connect_candidate_order (c : Context) (env : ConnectEnv)
    (rt old vold d : String)
    (hf : c.forked = false) (hst : c.state = ContextState.unconnected)
    (hds : c.conf.defaultServer = none) (hsl : c.serverList = [])
    (hrt : env.runtimePath = some rt) (hold : env.oldLegacyDir = some old)
    (hvold : env.veryOldLegacyDir = some vold) (hdisp : env.display = some d)
    (hloc : c.conf.autoConnectLocalhost = true)
    (hdact : c.conf.autoConnectDisplay = true)
    (hd : displayPrefix d ≠ "") :
    (pa_context_connect c none 0 false false env).2.serverList =
      [rt, old ++ "/" ++ PA_NATIVE_DEFAULT_UNIX_SOCKET,
       vold ++ "/" ++ PA_NATIVE_DEFAULT_UNIX_SOCKET,
       systemWideSocket, "tcp4:127.0.0.1", "tcp6:[::1]", displayPrefix d] := by
  cases hca : c.conf.autospawn <;>
    simp [pa_context_connect, hf, hst, hds, hsl, hca,
      build_default_server_list, prepend_per_user, pa_strlist_prepend,
      hrt, hold, hvold, hdisp, hloc, hdact, hd, connect_setup_autospawn,
      PA_CONTEXT_NOAUTOSPAWN, PA_CONTEXT_NOFAIL,
      pa_context_set_state_nonterminal _ ContextState.connecting
        (by decide) (by decide)]

/-- C8 counterexample: with every candidate source populated, the
per-user group is consumed runtime-path socket first and
home-directory `.pulse` socket last — not, as claimed, home-directory
socket and `/tmp` socket followed by the runtime path's socket. -/
theorem connect_candidate_order_counterexample :
    (pa_context_connect
      { baseCtx with conf :=
        { autospawn := false, defaultServer := none,
          autoConnectLocalhost := true, autoConnectDisplay := true } }
      none 0 false false
      ⟨some "/home/u/.pulse", some "/tmp/pulse-u", some "/run/pulse/native",
        some "host:0"⟩).2.serverList ≠
      ["/home/u/.pulse/native", "/tmp/pulse-u/native", "/run/pulse/native",
       "/var/run/pulse/native", "tcp4:127.0.0.1", "tcp6:[::1]", "host"] ∧
    (pa_context_connect
      { baseCtx with conf :=
        { autospawn := false, defaultServer := none,
          autoConnectLocalhost := true, autoConnectDisplay := true } }
      none 0 false false
      ⟨some "/home/u/.pulse", some "/tmp/pulse-u", some "/run/pulse/native",
        some "host:0"⟩).2.serverList =
      ["/run/pulse/native", "/tmp/pulse-u/native", "/home/u/.pulse/native",
       "/var/run/pulse/native", "tcp4:127.0.0.1", "tcp6:[::1]", "host"] := by
  decide

/-- C8 witness: the amended order at a fully populated concrete
environment. -/
theorem connect_candidate_order_witness :
    (pa_context_connect
      { baseCtx with conf :=
        { autospawn := true, defaultServer := none,
          autoConnectLocalhost := true, autoConnectDisplay := true } }
      none 0 false false
      ⟨some "/h/.pulse", some "/tmp/p-u", some "/run/p/native",
        some "disp:0"⟩).2.serverList =
      ["/run/p/native", "/tmp/p-u/native", "/h/.pulse/native",
       systemWideSocket, "tcp4:127.0.0.1", "tcp6:[::1]", "disp"] := by
  have h := connect_candidate_order
    { baseCtx with conf :=
      { autospawn := true, defaultServer := none,
        autoConnectLocalhost := true, autoConnectDisplay := true } }
    ⟨some "/h/.pulse", some "/tmp/p-u", some "/run/p/native", some "disp:0"⟩
    "/run/p/native" "/tmp/p-u" "/h/.pulse" "disp:0"
    rfl rfl rfl rfl rfl rfl rfl rfl rfl (by decide)
  simpa [PA_NATIVE_DEFAULT_UNIX_SOCKET, displayPrefix] using h

end PulseCtx
